import Mathlib

/-!
Shallow embedding of cds/modules/theme/static/js/main.js.

The file registers two DOM-ready callbacks:
- the first invokes angular.bootstrap on three containers, each looked up
  by getElementById and paired with a literal module list;
- the second wires focus and blur handlers on the navbar search input that
  add and remove the class "cds-active-search" on every element matching
  the selector ".cds-navbar-form".

A DOM element is modelled by its id attribute and its class list in
document order; jQuery addClass appends a class unless present, and
removeClass deletes every occurrence.
-/

namespace CdsMain

/-- A DOM element: its id attribute, if any, and its class list in document order. -/
structure Elem where
  idAttr : Option String
  classes : List String

deriving instance DecidableEq for Elem

/-- The class toggled by the focus and blur handlers (main.js lines 39 and 42). -/
def activeSearchClass : String := "cds-active-search"

/-- The class selector both handlers query (main.js lines 39 and 42). -/
def navbarFormClass : String := "cds-navbar-form"

/-- Whether an element matches the selector ".cds-navbar-form". -/
def matchesNavbarForm (e : Elem) : Prop := navbarFormClass ∈ e.classes

instance (e : Elem) : Decidable (matchesNavbarForm e) :=
  inferInstanceAs (Decidable (navbarFormClass ∈ e.classes))

/-- jQuery addClass on one element: append the class unless it is already present. -/
def addClass (c : String) (e : Elem) : Elem :=
  if c ∈ e.classes then e else { e with classes := e.classes ++ [c] }

/-- jQuery removeClass on one element: delete every occurrence of the class. -/
def removeClass (c : String) (e : Elem) : Elem :=
  { e with classes := e.classes.filter (fun x => decide (x ≠ c)) }

/-- Effect of the focus handler (main.js lines 38 to 40) on one element of the
page: elements matching ".cds-navbar-form" get "cds-active-search" added. -/
def focusElem (e : Elem) : Elem :=
  if matchesNavbarForm e then addClass activeSearchClass e else e

/-- Effect of the blur handler (main.js lines 41 to 43) on one element of the
page: elements matching ".cds-navbar-form" get "cds-active-search" removed. -/
def blurElem (e : Elem) : Elem :=
  if matchesNavbarForm e then removeClass activeSearchClass e else e

/-- The focus handler: the selector is evaluated on the whole page and every
matching element is updated. -/
def focusHandler (p : List Elem) : List Elem := p.map focusElem

/-- The blur handler: the selector is evaluated on the whole page and every
matching element is updated. -/
def blurHandler (p : List Elem) : List Elem := p.map blurElem

/-- One focus-blur-focus cycle of the search input. -/
def cycle (p : List Elem) : List Elem := focusHandler (blurHandler (focusHandler p))

/-- Events the page can receive: focus or blur of the navbar search input, or
anything else, which no handler of main.js observes. -/
inductive Event where
  | focus
  | blur
  | other

deriving instance DecidableEq for Event

/-- One event dispatch after the handlers of main.js are registered. -/
def step (p : List Elem) : Event → List Elem
  | Event.focus => focusHandler p
  | Event.blur => blurHandler p
  | Event.other => p

/-- A whole event sequence dispatched in order. -/
def run (p : List Elem) : List Event → List Elem
  | [] => p
  | ev :: evs => run (step p ev) evs

/-- No element matching ".cds-navbar-form" carries the class "cds-active-search". -/
def noActive (p : List Elem) : Prop :=
  ∀ e ∈ p, matchesNavbarForm e → activeSearchClass ∉ e.classes

instance (p : List Elem) : Decidable (noActive p) :=
  inferInstanceAs (Decidable (∀ e ∈ p, matchesNavbarForm e → activeSearchClass ∉ e.classes))

/-- document.getElementById: the first element of the page carrying the id. -/
def getElementById (page : List Elem) (i : String) : Option Elem :=
  page.find? (fun e => decide (e.idAttr = some i))

/-- One invocation of angular.bootstrap: the id that was looked up, the element
argument actually passed (none models a null lookup result), and the module list. -/
structure BootstrapCall where
  targetId : String
  target : Option Elem
  modules : List String

deriving instance DecidableEq for BootstrapCall

/-- The trace of angular.bootstrap invocations performed by the angular
DOM-ready callback (main.js lines 25 to 35), in order. Each call passes the
getElementById result unconditionally. -/
def angularReady (page : List Elem) : List BootstrapCall :=
  [ { targetId := "invenio-search",
      target := getElementById page "invenio-search",
      modules := ["cds", "angular-loading-bar", "ngDialog", "invenioSearch"] },
    { targetId := "cds-featured-video",
      target := getElementById page "cds-featured-video",
      modules := ["cds", "invenioSearch"] },
    { targetId := "cds-recent-videos",
      target := getElementById page "cds-recent-videos",
      modules := ["cds", "invenioSearch"] } ]

/-! Helper lemmas about addClass, removeClass and the per-element handler effects. -/

lemma mem_addClass (c d : String) (e : Elem) :
    d ∈ (addClass c e).classes ↔ d ∈ e.classes ∨ d = c := by
  unfold addClass
  split
  · constructor
    · exact Or.inl
    · rintro (h | rfl)
      · exact h
      · assumption
  · simp

lemma mem_removeClass (c d : String) (e : Elem) :
    d ∈ (removeClass c e).classes ↔ d ∈ e.classes ∧ d ≠ c := by
  simp [removeClass, List.mem_filter]

lemma addClass_idAttr (c : String) (e : Elem) : (addClass c e).idAttr = e.idAttr := by
  unfold addClass
  split <;> rfl

lemma removeClass_idAttr (c : String) (e : Elem) : (removeClass c e).idAttr = e.idAttr := rfl

lemma addClass_of_mem {c : String} {e : Elem} (h : c ∈ e.classes) : addClass c e = e := by
  simp [addClass, h]

lemma navbarForm_ne_active : navbarFormClass ≠ activeSearchClass := by decide

lemma matchesNavbarForm_addClass (e : Elem) :
    matchesNavbarForm (addClass activeSearchClass e) ↔ matchesNavbarForm e := by
  unfold matchesNavbarForm
  rw [mem_addClass]
  simp [navbarForm_ne_active]

lemma matchesNavbarForm_removeClass (e : Elem) :
    matchesNavbarForm (removeClass activeSearchClass e) ↔ matchesNavbarForm e := by
  unfold matchesNavbarForm
  rw [mem_removeClass]
  simp [navbarForm_ne_active]

lemma focusElem_idAttr (e : Elem) : (focusElem e).idAttr = e.idAttr := by
  unfold focusElem
  split
  · exact addClass_idAttr _ _
  · rfl

lemma blurElem_idAttr (e : Elem) : (blurElem e).idAttr = e.idAttr := by
  unfold blurElem
  split
  · rfl
  · rfl

lemma matchesNavbarForm_focusElem (e : Elem) :
    matchesNavbarForm (focusElem e) ↔ matchesNavbarForm e := by
  unfold focusElem
  split
  · exact matchesNavbarForm_addClass e
  · exact Iff.rfl

lemma matchesNavbarForm_blurElem (e : Elem) :
    matchesNavbarForm (blurElem e) ↔ matchesNavbarForm e := by
  unfold blurElem
  split
  · exact matchesNavbarForm_removeClass e
  · exact Iff.rfl

lemma mem_focusElem_of_ne {c : String} (hc : c ≠ activeSearchClass) (e : Elem) :
    c ∈ (focusElem e).classes ↔ c ∈ e.classes := by
  unfold focusElem
  split
  · rw [mem_addClass]
    simp [hc]
  · exact Iff.rfl

lemma mem_blurElem_of_ne {c : String} (hc : c ≠ activeSearchClass) (e : Elem) :
    c ∈ (blurElem e).classes ↔ c ∈ e.classes := by
  unfold blurElem
  split
  · rw [mem_removeClass]
    simp [hc]
  · exact Iff.rfl

lemma active_mem_focusElem {e : Elem} (h : matchesNavbarForm e) :
    activeSearchClass ∈ (focusElem e).classes := by
  rw [focusElem, if_pos h, mem_addClass]
  exact Or.inr rfl

lemma active_not_mem_blurElem {e : Elem} (h : matchesNavbarForm e) :
    activeSearchClass ∉ (blurElem e).classes := by
  rw [blurElem, if_pos h, mem_removeClass]
  rintro ⟨-, hne⟩
  exact hne rfl

lemma removeClass_addClass (e : Elem) :
    removeClass activeSearchClass (addClass activeSearchClass e) =
      removeClass activeSearchClass e := by
  unfold addClass
  split
  · rfl
  · unfold removeClass
    simp [List.filter_append]

lemma removeClass_removeClass (c : String) (e : Elem) :
    removeClass c (removeClass c e) = removeClass c e := by
  simp [removeClass, List.filter_filter]

lemma focusElem_of_matches {e : Elem} (h : matchesNavbarForm e) :
    focusElem e = addClass activeSearchClass e := if_pos h

lemma focusElem_of_not_matches {e : Elem} (h : ¬ matchesNavbarForm e) :
    focusElem e = e := if_neg h

lemma blurElem_of_matches {e : Elem} (h : matchesNavbarForm e) :
    blurElem e = removeClass activeSearchClass e := if_pos h

lemma blurElem_of_not_matches {e : Elem} (h : ¬ matchesNavbarForm e) :
    blurElem e = e := if_neg h

lemma focusElem_focusElem (e : Elem) : focusElem (focusElem e) = focusElem e := by
  by_cases h : matchesNavbarForm e
  · rw [focusElem_of_matches h,
      focusElem_of_matches ((matchesNavbarForm_addClass e).mpr h)]
    exact addClass_of_mem ((mem_addClass _ _ _).mpr (Or.inr rfl))
  · rw [focusElem_of_not_matches h, focusElem_of_not_matches h]

lemma blurElem_blurElem (e : Elem) : blurElem (blurElem e) = blurElem e := by
  by_cases h : matchesNavbarForm e
  · rw [blurElem_of_matches h,
      blurElem_of_matches ((matchesNavbarForm_removeClass e).mpr h)]
    exact removeClass_removeClass _ _
  · rw [blurElem_of_not_matches h, blurElem_of_not_matches h]

lemma blurElem_focusElem (e : Elem) : blurElem (focusElem e) = blurElem e := by
  by_cases h : matchesNavbarForm e
  · rw [focusElem_of_matches h,
      blurElem_of_matches ((matchesNavbarForm_addClass e).mpr h),
      blurElem_of_matches h]
    exact removeClass_addClass e
  · rw [focusElem_of_not_matches h]

lemma map_comp_eq {f g h : Elem → Elem} (hfg : ∀ e, f (g e) = h e) (p : List Elem) :
    (p.map g).map f = p.map h := by
  induction p with
  | nil => rfl
  | cons a l ih => simp only [List.map_cons, hfg, ih]

lemma focusHandler_focusHandler (p : List Elem) :
    focusHandler (focusHandler p) = focusHandler p :=
  map_comp_eq focusElem_focusElem p

lemma blurHandler_blurHandler (p : List Elem) :
    blurHandler (blurHandler p) = blurHandler p :=
  map_comp_eq blurElem_blurElem p

lemma blurHandler_focusHandler (p : List Elem) :
    blurHandler (focusHandler p) = blurHandler p :=
  map_comp_eq blurElem_focusElem p

lemma cycle_eq (p : List Elem) : cycle p = focusHandler (blurHandler p) := by
  rw [cycle, blurHandler_focusHandler]

lemma cycle_iterate (p : List Elem) (m : ℕ) :
    cycle^[m + 1] p = focusHandler (blurHandler p) := by
  induction m with
  | zero => simpa using cycle_eq p
  | succ k ih =>
    rw [Function.iterate_succ_apply', ih, cycle_eq, blurHandler_focusHandler,
      blurHandler_blurHandler]

lemma focusElem_blurElem_same_sets (a : Elem) :
    (focusElem (blurElem a)).idAttr = (focusElem a).idAttr ∧
      ∀ c : String, c ∈ (focusElem (blurElem a)).classes ↔ c ∈ (focusElem a).classes := by
  by_cases h : matchesNavbarForm a
  · refine ⟨by rw [focusElem_idAttr, blurElem_idAttr, focusElem_idAttr], fun c => ?_⟩
    rw [focusElem_of_matches ((matchesNavbarForm_blurElem a).mpr h),
      blurElem_of_matches h, focusElem_of_matches h,
      mem_addClass, mem_removeClass, mem_addClass]
    by_cases hc : c = activeSearchClass
    · simp [hc]
    · simp [hc]
  · rw [blurElem_of_not_matches h]
    exact ⟨rfl, fun c => Iff.rfl⟩

lemma map_eq_self_of {f : Elem → Elem} (p : List Elem) (h : ∀ e ∈ p, f e = e) :
    p.map f = p := by
  induction p with
  | nil => rfl
  | cons a l ih =>
    rw [List.map_cons, h a (List.mem_cons_self a l),
      ih (fun e he => h e (List.mem_cons_of_mem a he))]

lemma noActive_blurHandler (p : List Elem) : noActive (blurHandler p) := by
  intro e he hm
  rw [blurHandler, List.mem_map] at he
  obtain ⟨a, -, rfl⟩ := he
  exact active_not_mem_blurElem ((matchesNavbarForm_blurElem a).mp hm)

lemma run_no_focus_noActive (l : List Event) :
    ∀ p : List Elem, Event.focus ∉ l → noActive p → noActive (run p l) := by
  induction l with
  | nil => exact fun p _ h0 => h0
  | cons ev evs ih =>
    intro p hnf h0
    refine ih (step p ev) (fun h => hnf (List.mem_cons_of_mem ev h)) ?_
    cases ev with
    | focus => exact absurd (List.mem_cons_self Event.focus evs) hnf
    | blur => exact noActive_blurHandler p
    | other => exact h0

/-! Claim theorems. -/

/-- C1: after the DOM-ready event fires, the angular ready callback has invoked
angular.bootstrap exactly once for each of the three designated containers,
"invenio-search", "cds-featured-video" and "cds-recent-videos", each with its
literal module list. -/
theorem bootstrap_each_container_once (page : List Elem) :
    ((angularReady page).countP (fun c => decide (c.targetId = "invenio-search")) = 1 ∧
     (angularReady page).countP (fun c => decide (c.targetId = "cds-featured-video")) = 1 ∧
     (angularReady page).countP (fun c => decide (c.targetId = "cds-recent-videos")) = 1) ∧
    ∀ c ∈ angularReady page,
      (c.targetId = "invenio-search" →
        c.modules = ["cds", "angular-loading-bar", "ngDialog", "invenioSearch"]) ∧
      ((c.targetId = "cds-featured-video" ∨ c.targetId = "cds-recent-videos") →
        c.modules = ["cds", "invenioSearch"]) := by
  constructor
  · refine ⟨?_, ?_, ?_⟩ <;> simp [angularReady, List.countP_cons]
  · intro c hc
    simp only [angularReady, List.mem_cons, List.not_mem_nil, or_false] at hc
    rcases hc with rfl | rfl | rfl
    · refine ⟨fun _ => rfl, fun h => absurd h ?_⟩
      show ¬("invenio-search" = "cds-featured-video" ∨ "invenio-search" = "cds-recent-videos")
      decide
    · refine ⟨fun h => absurd h ?_, fun _ => rfl⟩
      show ¬"cds-featured-video" = "invenio-search"
      decide
    · refine ⟨fun h => absurd h ?_, fun _ => rfl⟩
      show ¬"cds-recent-videos" = "invenio-search"
      decide

/-- C4 counterexample: on the empty page every container is absent, yet the
angular ready callback still performs a bootstrap call whose element argument
is none (the null lookup result): the absent container IS passed to the
bootstrap entry point. -/
theorem bootstrap_absent_target_passed :
    ¬ ∀ c ∈ angularReady [], c.target ≠ none := by decide

/-- C4 amended: for each of the three containers the DOM-ready handler invokes
angular.bootstrap unconditionally, passing the getElementById lookup result as
the element argument: the element when the container is found, and none (null)
when it is absent. -/
theorem bootstrap_unconditional (page : List Elem) :
    (angularReady page).length = 3 ∧
      ∀ c ∈ angularReady page, c.target = getElementById page c.targetId := by
  refine ⟨rfl, fun c hc => ?_⟩
  simp only [angularReady, List.mem_cons, List.not_mem_nil, or_false] at hc
  rcases hc with rfl | rfl | rfl <;> rfl

/-- C5: the three bootstrap calls use exactly two distinct module lists: the
second and third containers share one identical list, the first container has
a different list, and the shared list is contained in the first list. -/
theorem two_distinct_module_lists (page : List Elem) :
    ∃ c₁ c₂ c₃ : BootstrapCall, angularReady page = [c₁, c₂, c₃] ∧
      c₂.modules = c₃.modules ∧ c₁.modules ≠ c₂.modules ∧
      ∀ m ∈ c₂.modules, m ∈ c₁.modules := by
  refine ⟨_, _, _, rfl, rfl, ?_, ?_⟩
  · show ["cds", "angular-loading-bar", "ngDialog", "invenioSearch"] ≠ ["cds", "invenioSearch"]
    decide
  · show ∀ m ∈ ["cds", "invenioSearch"],
      m ∈ ["cds", "angular-loading-bar", "ngDialog", "invenioSearch"]
    decide

/-- C2: after any focus event on the navbar search input, every element of the
page matching ".cds-navbar-form" carries the class "cds-active-search": the
focus handler adds the active class to the designated container. -/
theorem focus_adds_active_class (p : List Elem) (e : Elem) (he : e ∈ focusHandler p)
    (hm : matchesNavbarForm e) : activeSearchClass ∈ e.classes := by
  rw [focusHandler, List.mem_map] at he
  obtain ⟨a, -, rfl⟩ := he
  exact active_mem_focusElem ((matchesNavbarForm_focusElem a).mp hm)

/-- C2 witness: the focus handler on a one-element page consisting of the
navbar form container yields that container with the active class added. -/
theorem focus_adds_active_class_witness :
    activeSearchClass ∈ (Elem.mk none [navbarFormClass, activeSearchClass]).classes :=
  focus_adds_active_class [Elem.mk none [navbarFormClass]] _ (by decide) (by decide)

/-- C3: after any blur event on the navbar search input, no element of the
page matching ".cds-navbar-form" carries the class "cds-active-search": the
blur handler removes the active class from the designated container. -/
theorem blur_removes_active_class (p : List Elem) (e : Elem) (he : e ∈ blurHandler p)
    (hm : matchesNavbarForm e) : activeSearchClass ∉ e.classes := by
  rw [blurHandler, List.mem_map] at he
  obtain ⟨a, -, rfl⟩ := he
  exact active_not_mem_blurElem ((matchesNavbarForm_blurElem a).mp hm)

/-- C3 witness: the blur handler on a one-element page consisting of the navbar
form container already carrying the active class removes that class. -/
theorem blur_removes_active_class_witness :
    activeSearchClass ∉ (Elem.mk none [navbarFormClass]).classes :=
  blur_removes_active_class [Elem.mk none [navbarFormClass, activeSearchClass]] _
    (by decide) (by decide)

/-- C7: applying the focus handler to a page whose matching containers already
carry the active class leaves the page unchanged, and the per-element update
never introduces a duplicate class entry: the class list keeps behaving as a
set. -/
theorem focus_on_present_class_unchanged (p : List Elem)
    (h : ∀ e ∈ p, matchesNavbarForm e → activeSearchClass ∈ e.classes) :
    focusHandler p = p ∧
      ∀ e : Elem, e.classes.Nodup → (focusElem e).classes.Nodup := by
  constructor
  · refine map_eq_self_of p (fun e he => ?_)
    by_cases hm : matchesNavbarForm e
    · rw [focusElem_of_matches hm, addClass_of_mem (h e he hm)]
    · exact focusElem_of_not_matches hm
  · intro e hnd
    by_cases hm : matchesNavbarForm e
    · by_cases hmem : activeSearchClass ∈ e.classes
      · rw [focusElem_of_matches hm, addClass_of_mem hmem]
        exact hnd
      · rw [focusElem_of_matches hm, addClass, if_neg hmem]
        simp [List.nodup_append, hnd, hmem]
    · rw [focusElem_of_not_matches hm]
      exact hnd

/-- C7 witness: on the page whose only element is the navbar form container
already carrying the active class, the focus handler is the identity. -/
theorem focus_on_present_class_unchanged_witness :
    focusHandler [Elem.mk none [navbarFormClass, activeSearchClass]] =
      [Elem.mk none [navbarFormClass, activeSearchClass]] ∧
      ∀ e : Elem, e.classes.Nodup → (focusElem e).classes.Nodup :=
  focus_on_present_class_unchanged [Elem.mk none [navbarFormClass, activeSearchClass]]
    (by decide)

/-- C6: for every n at least 1, n focus-blur-focus cycles leave every element
of the page with the same id and the same class membership as a single focus
event: the active class is present exactly where a single focus puts it,
regardless of the repetition count. -/
theorem cycles_equal_single_focus (p : List Elem) (n : ℕ) (hn : 1 ≤ n) :
    (cycle^[n] p).length = (focusHandler p).length ∧
      ∀ i : ℕ, ∀ e e₁ : Elem, (cycle^[n] p)[i]? = some e → (focusHandler p)[i]? = some e₁ →
        e.idAttr = e₁.idAttr ∧ ∀ c : String, c ∈ e.classes ↔ c ∈ e₁.classes := by
  obtain ⟨m, rfl⟩ : ∃ m, n = m + 1 := ⟨n - 1, (Nat.succ_pred_eq_of_pos hn).symm⟩
  rw [cycle_iterate]
  constructor
  · simp [focusHandler, blurHandler]
  · intro i e e₁ he he₁
    rw [focusHandler, blurHandler, List.getElem?_map, List.getElem?_map] at he
    rw [focusHandler, List.getElem?_map] at he₁
    cases hp : p[i]? with
    | none => rw [hp] at he; exact absurd he (by simp)
    | some a =>
      rw [hp] at he he₁
      simp only [Option.map_some', Option.some.injEq] at he he₁
      subst he
      subst he₁
      exact focusElem_blurElem_same_sets a

/-- C6 witness: two focus-blur-focus cycles on the one-container page agree
with a single focus event, element by element. -/
theorem cycles_equal_single_focus_witness :
    (cycle^[2] [Elem.mk none [navbarFormClass]]).length =
        (focusHandler [Elem.mk none [navbarFormClass]]).length ∧
      ∀ i : ℕ, ∀ e e₁ : Elem,
        (cycle^[2] [Elem.mk none [navbarFormClass]])[i]? = some e →
        (focusHandler [Elem.mk none [navbarFormClass]])[i]? = some e₁ →
        e.idAttr = e₁.idAttr ∧ ∀ c : String, c ∈ e.classes ↔ c ∈ e₁.classes :=
  cycles_equal_single_focus [Elem.mk none [navbarFormClass]] 2 (by decide)

/-- C8: if the search input never receives a focus event, then after every
prefix of the event sequence no container matching ".cds-navbar-form" carries
the class "cds-active-search", provided the class is initially absent. -/
theorem never_focused_never_active (p : List Elem) (l₁ l₂ : List Event)
    (hnf : Event.focus ∉ l₁ ++ l₂) (h0 : noActive p) : noActive (run p l₁) :=
  run_no_focus_noActive l₁ p (fun h => hnf (List.mem_append.mpr (Or.inl h))) h0

/-- C8 witness: a blur followed by an unrelated event on the one-container
page without the active class leaves the active class absent. -/
theorem never_focused_never_active_witness :
    noActive (run [Elem.mk none [navbarFormClass]] [Event.blur, Event.other]) :=
  never_focused_never_active [Elem.mk none [navbarFormClass]]
    [Event.blur, Event.other] [Event.blur] (by decide) (by decide)

/-- C9: one invocation of the focus or blur handler changes only the
membership of "cds-active-search" on the elements matching ".cds-navbar-form":
the page keeps its length, every non-matching element is untouched, and every
element keeps its id and the membership of every other class. -/
theorem handlers_frame_effect (p : List Elem) :
    (focusHandler p).length = p.length ∧ (blurHandler p).length = p.length ∧
      ∀ i : ℕ, ∀ e : Elem, p[i]? = some e →
        ((¬ matchesNavbarForm e →
            (focusHandler p)[i]? = some e ∧ (blurHandler p)[i]? = some e) ∧
         ∀ e₁ : Elem, ((focusHandler p)[i]? = some e₁ ∨ (blurHandler p)[i]? = some e₁) →
           e₁.idAttr = e.idAttr ∧
             ∀ c : String, c ≠ activeSearchClass → (c ∈ e₁.classes ↔ c ∈ e.classes)) := by
  refine ⟨by simp [focusHandler], by simp [blurHandler], ?_⟩
  intro i e hpe
  constructor
  · intro hm
    rw [focusHandler, List.getElem?_map, blurHandler, List.getElem?_map, hpe]
    simp [focusElem_of_not_matches hm, blurElem_of_not_matches hm]
  · rintro e₁ (he₁ | he₁)
    · rw [focusHandler, List.getElem?_map, hpe] at he₁
      simp only [Option.map_some', Option.some.injEq] at he₁
      subst he₁
      exact ⟨focusElem_idAttr e, fun c hc => mem_focusElem_of_ne hc e⟩
    · rw [blurHandler, List.getElem?_map, hpe] at he₁
      simp only [Option.map_some', Option.some.injEq] at he₁
      subst he₁
      exact ⟨blurElem_idAttr e, fun c hc => mem_blurElem_of_ne hc e⟩

/-- C10: the handlers act through the class selector on the whole page: when
no element matches ".cds-navbar-form" both handlers are the identity on the
page, and when elements match, every matching element gets the active class
added by focus and removed by blur, not just one designated container. -/
theorem selector_matches_all_or_none (p : List Elem) :
    ((∀ e ∈ p, ¬ matchesNavbarForm e) → focusHandler p = p ∧ blurHandler p = p) ∧
      ∀ i : ℕ, ∀ e : Elem, p[i]? = some e → matchesNavbarForm e →
        (∃ e₁ : Elem, (focusHandler p)[i]? = some e₁ ∧ activeSearchClass ∈ e₁.classes) ∧
        ∃ e₂ : Elem, (blurHandler p)[i]? = some e₂ ∧ activeSearchClass ∉ e₂.classes := by
  constructor
  · intro h
    exact ⟨map_eq_self_of p (fun e he => focusElem_of_not_matches (h e he)),
      map_eq_self_of p (fun e he => blurElem_of_not_matches (h e he))⟩
  · intro i e hpe hm
    constructor
    · refine ⟨focusElem e, ?_, active_mem_focusElem hm⟩
      rw [focusHandler, List.getElem?_map, hpe]
      rfl
    · refine ⟨blurElem e, ?_, active_not_mem_blurElem hm⟩
      rw [blurHandler, List.getElem?_map, hpe]
      rfl

end CdsMain
